import Mathlib

/-!
Verification of the quiz680 backend against its natural-language specification.

This file gives a shallow embedding, in Lean 4, of the parts of the backend
that the specification claims describe:

* the spaced-repetition review scheduler
  (backend/app/api/exam_history.py, complete_review),
* the answer grader and the answer-submission state transition
  (backend/app/api/questions.py, submit_answer / complete_exam_session),
* the exam-session creation operations
  (backend/app/api/exam_history.py, create_exam_session),
* the multiple-choice option assembly of the question synthesizer
  (backend/app/services/question_generator.py),
* the PDF text segmenter
  (backend/app/services/pdf.py, is_chapter_header / process_pdf).

Conventions of the embedding:

* Timestamps are modelled as natural numbers counted in days, so that
  timedelta(days = n) becomes addition of n.  Database rows are Lean
  structures; nullable columns are Option.  A route handler that raises an
  HTTPException is modelled as a function into Except with the detail string
  as the error value.
* Python strings are Lean String values; str.strip, str.split, str.join,
  str.lower, ord and list truthiness are embedded explicitly below.
* The regular expressions of is_chapter_header are embedded as maximal-munch
  character scanners.  This is exact for these particular patterns: in every
  pattern, any two adjacent quantified character classes are disjoint, so the
  greedy backtracking search of the re module never needs to backtrack and
  agrees with maximal munch.
-/

/-! ## Review scheduler (backend/app/api/exam_history.py) -/

/-- One review_recommendations row, with the columns the scheduler reads and
writes.  Timestamps are in days. -/
structure ReviewRec where
  review_stage : Nat
  last_reviewed_at : Option Nat
  next_review_at : Nat
deriving Repr, DecidableEq

/-- Result of the complete-review route: either the row is updated in place or
it is deleted from the table. -/
inductive ReviewOutcome where
  | updated (rec : ReviewRec)
  | deleted
deriving Repr, DecidableEq

/-- Embedding of complete_review (exam_history.py lines 208-227): the stage is
incremented first, last_reviewed_at is set to now, and then the if/elif chain
dispatches on the incremented stage; stages above 5 delete the row. -/
def complete_review (rec : ReviewRec) (now : Nat) : ReviewOutcome :=
  let r := { rec with review_stage := rec.review_stage + 1,
                      last_reviewed_at := some now }
  if r.review_stage = 1 then .updated { r with next_review_at := now + 1 }
  else if r.review_stage = 2 then .updated { r with next_review_at := now + 3 }
  else if r.review_stage = 3 then .updated { r with next_review_at := now + 7 }
  else if r.review_stage = 4 then .updated { r with next_review_at := now + 14 }
  else if r.review_stage = 5 then .updated { r with next_review_at := now + 30 }
  else .deleted

/-- The interval table of the specification, mapping a stage to its delay in
days: stage 1 waits 1 day, 2 waits 3, 3 waits 7, 4 waits 14, 5 waits 30. -/
def interval_table_days (stage : Nat) : Nat :=
  if stage = 1 then 1
  else if stage = 2 then 3
  else if stage = 3 then 7
  else if stage = 4 then 14
  else if stage = 5 then 30
  else 0

/-- Embedding of skip_review (exam_history.py lines 230-253): the row is
deleted unconditionally. -/
def skip_review (_rec : ReviewRec) : ReviewOutcome := .deleted

/-! ## Answer grader (backend/app/api/questions.py, submit_answer) -/

/-- Embedding of the Python built-in ord applied to a string: defined exactly
when the string is a single character. -/
def pyOrd (s : String) : Option Nat :=
  match s.toList with
  | [c] => some c.toNat
  | _ => none

/-- Embedding of Python str.lower() over the ASCII range the grader sees:
uppercase ASCII letters are shifted to lowercase, everything else is kept.
Defined character by character so that it evaluates by kernel reduction. -/
def pyLowerChar (c : Char) : Char :=
  if 'A' ≤ c ∧ c ≤ 'Z' then Char.ofNat (c.toNat + 32) else c

/-- Embedding of Python str.lower(). -/
def pyLower (s : String) : String := String.mk (s.toList.map pyLowerChar)

/-- Grading logic of submit_answer (questions.py lines 86-111).  The code
initializes is_correct to False, handles multiple_choice (raising on an
out-of-bounds correct-answer letter) and true_false, and leaves every other
question type, in particular short_answer, at the initial False. -/
def gradeAnswer (question_type : String) (options : List String)
    (correct_answer : String) (chosen_answer : String) : Except String Bool :=
  if question_type = "multiple_choice" then
    match pyOrd correct_answer with
    | none => .error "TypeError"
    | some o =>
      let correct_index : Int := (o : Int) - (('A'.toNat : Nat) : Int)
      if correct_index < 0 ∨ (options.length : Int) ≤ correct_index then
        .error "Invalid correct answer format"
      else
        let correct_answer_text := options.getD correct_index.toNat ""
        .ok (chosen_answer == correct_answer || chosen_answer == correct_answer_text)
  else if question_type = "true_false" then
    let correct := pyLower correct_answer
    let chosen0 := pyLower chosen_answer
    let chosen := if chosen0 == "a" || chosen0 == "b" then
        (if chosen0 == "a" then "true" else "false")
      else chosen0
    .ok (chosen == correct)
  else
    .ok false

/-! ## Exam sessions and the submit-answer state transition -/

/-- One exam_sessions row.  score is a Float column fed only integer values;
it is modelled as Int together with total_questions and correct_answers,
which the create route copies from unvalidated client input. -/
structure ExamSessionRec where
  sid : Nat
  user_id : Nat
  chapter_id : Nat
  score : Int
  total_questions : Int
  correct_answers : Int
  started_at : Nat
  completed_at : Option Nat
deriving Repr, DecidableEq

/-- One question_attempts row as created by submit_answer. -/
structure AttemptRec where
  user_id : Nat
  question_id : Nat
  exam_session_id : Nat
  chosen_answer : String
  is_correct : Bool
deriving Repr, DecidableEq

/-- The columns of a questions row that submit_answer reads. -/
structure QuestionRec where
  qid : Nat
  question_type : String
  options : List String
  correct_answer : String
  chapter_id : Nat
deriving Repr, DecidableEq

/-- The persisted state that submit_answer touches: the exam_sessions and
question_attempts tables, plus the id the next created session receives. -/
structure DBState where
  sessions : List ExamSessionRec
  attempts : List AttemptRec
  nextSessionId : Nat
deriving Repr, DecidableEq

/-- The active-session lookup of submit_answer (questions.py lines 114-118):
the first session of this user and chapter whose completed_at is unset. -/
def findActiveSession (st : DBState) (user chapter : Nat) : Option ExamSessionRec :=
  st.sessions.find? (fun s =>
    s.user_id == user && s.chapter_id == chapter && s.completed_at == none)

/-- Embedding of submit_answer (questions.py lines 74-147) as a state
transition: grade the answer (propagating the grading error, which in the
code aborts the request before any row is written), then attach the attempt
to the active session of (user, chapter of the question), creating a fresh
session with zero score, zero total and zero correct answers when none is
active. -/
def submit_answer (st : DBState) (user : Nat) (q : QuestionRec)
    (chosen : String) (now : Nat) : Except String (DBState × AttemptRec) :=
  match gradeAnswer q.question_type q.options q.correct_answer chosen with
  | .error e => .error e
  | .ok is_correct =>
    match findActiveSession st user q.chapter_id with
    | some sess =>
      let attempt : AttemptRec :=
        { user_id := user, question_id := q.qid, exam_session_id := sess.sid,
          chosen_answer := chosen, is_correct := is_correct }
      .ok ({ st with attempts := st.attempts ++ [attempt] }, attempt)
    | none =>
      let sess : ExamSessionRec :=
        { sid := st.nextSessionId, user_id := user, chapter_id := q.chapter_id,
          score := 0, total_questions := 0, correct_answers := 0,
          started_at := now, completed_at := none }
      let attempt : AttemptRec :=
        { user_id := user, question_id := q.qid, exam_session_id := sess.sid,
          chosen_answer := chosen, is_correct := is_correct }
      .ok ({ st with sessions := st.sessions ++ [sess],
                     attempts := st.attempts ++ [attempt],
                     nextSessionId := st.nextSessionId + 1 }, attempt)

/-- The persisted state after a submit_answer request: unchanged when the
request aborts with an error, since the code raises before adding any row. -/
def submit_answer_state (st : DBState) (user : Nat) (q : QuestionRec)
    (chosen : String) (now : Nat) : DBState :=
  match submit_answer st user q chosen now with
  | .ok (st2, _) => st2
  | .error _ => st

/-- Embedding of create_exam_session (exam_history.py lines 255-275): the
session is persisted with the client-supplied score and total, correct_answers
copied from score, and completed_at set to now.  No validation is applied. -/
def create_exam_session (sid user chapter : Nat) (score total_questions : Int)
    (duration : Option Nat) (now : Nat) : ExamSessionRec :=
  { sid := sid, user_id := user, chapter_id := chapter,
    score := score, total_questions := total_questions,
    correct_answers := score,
    started_at := now - duration.getD 0, completed_at := some now }

/-- Embedding of the update step of complete_exam_session (questions.py lines
166-179): total is the number of attempts of the session, score and correct
count the correct ones, and completed_at is set. -/
def complete_exam_session (sess : ExamSessionRec) (attempts : List AttemptRec)
    (now : Nat) : ExamSessionRec :=
  let total_questions : Int := attempts.length
  let correct_answers : Int := (attempts.filter (fun a => a.is_correct)).length
  { sess with total_questions := total_questions,
              correct_answers := correct_answers,
              score := correct_answers,
              completed_at := some now }

/-! ## Question synthesizer option assembly
(backend/app/services/question_generator.py) -/

/-- One concept record as built by _extract_generic_concepts or
_extract_domain_concepts: a term with its context window and source
sentence. -/
structure ConceptRec where
  term : String
  context : String
  sentence : String
deriving Repr, DecidableEq

/-- The correct-option text shared by _generate_generic_options and
_generate_domain_options (question_generator.py lines 1238-1244 and
1322-1328): the source sentence for the definition category, otherwise a
fixed template over term and context. -/
def correct_option_text (concept : ConceptRec) (pattern_category : String) : String :=
  if pattern_category = "definition" then concept.sentence
  else if pattern_category = "application" then
    "Using " ++ concept.term ++ " in " ++ concept.context
  else
    "Analysis of " ++ concept.term ++ " in " ++ concept.context

/-- Embedding of _generate_generic_options (question_generator.py lines
1234-1261): the correct option first, followed by the same template applied
to at most 3 concepts with a different term. -/
def generate_generic_options (concept : ConceptRec) (pattern_category : String)
    (all_concepts : List ConceptRec) : List String :=
  let correct := correct_option_text concept pattern_category
  let others := (all_concepts.filter (fun c => c.term ≠ concept.term)).take 3
  correct :: others.map (fun o => correct_option_text o pattern_category)

/-- A question draft with a positional option list, as built by
_generate_generic_questions. -/
structure MCQuestion where
  question_text : String
  question_type : String
  options : List String
  correct_answer : String
deriving Repr, DecidableEq

/-- A question draft whose options are a letter-keyed dictionary, as built by
_generate_domain_questions. -/
structure MCDictQuestion where
  question_text : String
  question_type : String
  options : List (String × String)
  correct_answer : String
deriving Repr, DecidableEq

/-- Embedding of the emission step of _generate_generic_questions
(question_generator.py lines 1208-1221): the options come from
_generate_generic_options, a question is emitted only when there are at
least 4 of them, and correct_answer is the constant letter A — the comment
in the source reads: first option is always correct.  No shuffle is applied
to the options at any point of this path. -/
def make_generic_question (question_text : String) (concept : ConceptRec)
    (pattern_category : String) (all_concepts : List ConceptRec) : Option MCQuestion :=
  let options := generate_generic_options concept pattern_category all_concepts
  if 4 ≤ options.length then
    some { question_text := question_text, question_type := "multiple_choice",
           options := options, correct_answer := "A" }
  else none

/-- Embedding of _generate_domain_options (question_generator.py lines
1318-1347): a dictionary mapping the letter A to the correct option and the
letters B, C, D to at most 3 options built from concepts with a different
term. -/
def generate_domain_options (concept : ConceptRec) (pattern_category : String)
    (all_concepts : List ConceptRec) : List (String × String) :=
  let correct := correct_option_text concept pattern_category
  let other_options := ((all_concepts.filter (fun c => c.term ≠ concept.term)).take 3).map
    (fun o => correct_option_text o pattern_category)
  ("A", correct) ::
    (other_options.take 3).enum.map
      (fun p => (String.singleton (Char.ofNat (65 + (p.1 + 1))), p.2))

/-- Embedding of the emission step of _generate_domain_questions
(question_generator.py lines 1299-1311): emitted only when the option
dictionary has at least 4 entries, with correct_answer the constant letter
A.  No shuffle is applied on this path either. -/
def make_domain_question (question_text : String) (concept : ConceptRec)
    (pattern_category : String) (all_concepts : List ConceptRec) : Option MCDictQuestion :=
  let options := generate_domain_options concept pattern_category all_concepts
  if 4 ≤ options.length then
    some { question_text := question_text, question_type := "multiple_choice",
           options := options, correct_answer := "A" }
  else none

/-- One meaning object of the first dictionary entry returned by the external
dictionary API, with the fields _generate_vocabulary_options reads.  A
missing antonyms key is the empty list; a missing example key is none. -/
structure DictMeaning where
  definitions : List String
  antonyms : List String
  example_text : Option String
deriving Repr, DecidableEq

/-- The external data handed to _generate_vocabulary_options.  none models a
missing or empty (falsy) key; some gives the meanings of the first dictionary
entry, respectively the words of the thesaurus entries. -/
structure ExternalData where
  dictionary : Option (List DictMeaning)
  thesaurus : Option (List String)
deriving Repr, DecidableEq

/-- The four generic options of the except branch of
_generate_vocabulary_options (question_generator.py lines 693-698). -/
def vocab_fallback (word : String) : List String :=
  ["Definition of " ++ word, "Synonym of " ++ word,
   "Antonym of " ++ word, "Usage of " ++ word]

/-- The while-loop padding of _generate_vocabulary_options: append the
branch-specific generic option until there are 4. -/
def pad_to_four (opts : List String) (filler : String) : List String :=
  opts ++ List.replicate (4 - opts.length) filler

/-- The final adjustment of _generate_vocabulary_options (question_generator.py
lines 675-686): truncate above 4, top up from the generic list below 4. -/
def ensure_four (word : String) (options : List String) : List String :=
  if 4 < options.length then options.take 4
  else if options.length < 4 then
    options ++ (["Option related to " ++ word, "Another option for " ++ word,
                 "Different usage of " ++ word,
                 "Alternative meaning of " ++ word].take (4 - options.length))
  else options

/-- Embedding of _generate_vocabulary_options (question_generator.py lines
627-698).  The definition branch indexes meanings[0] and the resulting
IndexError on an empty meanings list is caught by the surrounding except,
which returns the four generic fallback options; every other branch gathers
at most 3 options from the external data and pads. -/
def generate_vocabulary_options (word : String) (q_type : String)
    (ext : ExternalData) : List String :=
  if q_type = "definition" then
    match ext.dictionary with
    | some meanings =>
      match meanings.head? with
      | none => vocab_fallback word
      | some m =>
        ensure_four word (pad_to_four (m.definitions.take 3) ("A word related to " ++ word))
    | none => ensure_four word (pad_to_four [] ("A word related to " ++ word))
  else if q_type = "synonym" then
    let base := match ext.thesaurus with
      | some syns => (syns.filter (fun s => s ≠ word)).take 3
      | none => []
    ensure_four word (pad_to_four base ("Another word for " ++ word))
  else if q_type = "antonym" then
    let base := match ext.dictionary with
      | some meanings => ((meanings.map (fun m => m.antonyms)).flatten).take 3
      | none => []
    ensure_four word (pad_to_four base ("Opposite of " ++ word))
  else
    let base := match ext.dictionary with
      | some meanings => (meanings.filterMap (fun m => m.example_text)).take 3
      | none => []
    ensure_four word (pad_to_four base ("Example sentence using " ++ word))

/-- Position a correct-answer letter denotes inside an option list: its
distance from the letter A. -/
def letter_pos (s : String) : Nat := (s.toList.headD 'Z').toNat - 65

/-! ## Text segmenter (backend/app/services/pdf.py)

The segmenter is embedded as a pure fold over the list of per-page extracted
texts.  Persistence side effects, processing logs, and the derived summary and
keyword fields of a chapter are not modelled: no claim mentions them and they
do not influence which chapters are produced, their numbering, titles or
contents.  Title extraction for a detected header (extract_chapter_title) is
passed in as a parameter, since it is only ever applied to lines that
is_chapter_header accepted. -/

/-- The character class of the Python str.strip default and of the regex
class backslash-s. -/
def pyIsSpace (c : Char) : Bool :=
  c == ' ' || c == '\t' || c == '\n' || c == '\r' || c == '\x0b' || c == '\x0c'

/-- Embedding of Python str.strip(). -/
def pyStrip (s : String) : String :=
  String.mk (((s.toList.dropWhile pyIsSpace).reverse.dropWhile pyIsSpace).reverse)

/-- The regex class [A-Z]. -/
def isUpperAZ (c : Char) : Bool := 'A' ≤ c && c ≤ 'Z'

/-- The regex class [a-z]. -/
def isLowerAZ (c : Char) : Bool := 'a' ≤ c && c ≤ 'z'

/-- The regex class backslash-d restricted to ASCII, which is all the
segmenter ever sees. -/
def isDigitC (c : Char) : Bool := '0' ≤ c && c ≤ '9'

/-- The regex class [IVX] of the Roman-numeral heading pattern. -/
def isIVX (c : Char) : Bool := c == 'I' || c == 'V' || c == 'X'

/-- Consume an exact literal, returning the rest of the input. -/
def chompLit : List Char → List Char → Option (List Char)
  | [], cs => some cs
  | _ :: _, [] => none
  | l :: ls, c :: cs => if c = l then chompLit ls cs else none

/-- Consume a maximal non-empty run of characters of a class, as a greedy
one-or-more regex quantifier does. -/
def chomp1 (p : Char → Bool) : List Char → Option (List Char)
  | [] => none
  | c :: cs => if p c then some (cs.dropWhile p) else none

/-- The trailing regex fragment backslash-s* [-:]* backslash-s* [A-Z] shared
by several header patterns. -/
def sepThenUpper (cs : List Char) : Bool :=
  let cs1 := cs.dropWhile pyIsSpace
  let cs2 := cs1.dropWhile (fun c => c == '-' || c == ':')
  let cs3 := cs2.dropWhile pyIsSpace
  match cs3 with
  | c :: _ => isUpperAZ c
  | [] => false

/-- Consume a sequence of literal words separated by runs of whitespace, then
hand the rest to a continuation. -/
def matchWordsThen : List (List Char) → (List Char → Bool) → List Char → Bool
  | [], k, cs => k cs
  | w :: ws, k, cs =>
    match chompLit w cs with
    | none => false
    | some cs2 =>
      match ws with
      | [] => k cs2
      | _ :: _ =>
        match chomp1 pyIsSpace cs2 with
        | none => false
        | some cs3 => matchWordsThen ws k cs3

/-- The header pattern shape of Chapter, CHAPTER and Part: the literal word,
whitespace, digits, then separators and an uppercase letter. -/
def patLitNum (w : List Char) (cs : List Char) : Bool :=
  match chompLit w cs with
  | none => false
  | some cs1 =>
    match chomp1 pyIsSpace cs1 with
    | none => false
    | some cs2 =>
      match chomp1 isDigitC cs2 with
      | none => false
      | some cs3 => sepThenUpper cs3

/-- The shared tail of the numbered and Roman-numeral title patterns: a dot,
whitespace, an uppercase letter and at least one lowercase letter. -/
def dotSpaceUpperLower (cs : List Char) : Bool :=
  match cs with
  | '.' :: cs1 =>
    match chomp1 pyIsSpace cs1 with
    | some (c1 :: c2 :: _) => isUpperAZ c1 && isLowerAZ c2
    | _ => false
  | _ => false

/-- The pattern digits dot whitespace Title. -/
def patNumDotTitle (cs : List Char) : Bool :=
  match chomp1 isDigitC cs with
  | some rest => dotSpaceUpperLower rest
  | none => false

/-- The pattern Roman-numerals dot whitespace Title. -/
def patRomanTitle (cs : List Char) : Bool :=
  match chomp1 isIVX cs with
  | some rest => dotSpaceUpperLower rest
  | none => false

/-- The pattern of a capitalized word, a number, separators and an uppercase
letter, covering Section-style headings. -/
def patWordNum (cs : List Char) : Bool :=
  match cs with
  | c :: cs1 =>
    isUpperAZ c &&
      (match chomp1 isLowerAZ cs1 with
       | some cs2 =>
         (match chomp1 pyIsSpace cs2 with
          | some cs3 =>
            (match chomp1 isDigitC cs3 with
             | some cs4 => sepThenUpper cs4
             | none => false)
          | none => false)
       | none => false)
  | [] => false

/-- The extra-validation pattern digits dot whitespace uppercase letter. -/
def patNumDotUpper (cs : List Char) : Bool :=
  match chomp1 isDigitC cs with
  | some ('.' :: cs1) =>
    match chomp1 pyIsSpace cs1 with
    | some (c :: _) => isUpperAZ c
    | _ => false
  | _ => false

/-- Embedding of Python str.isupper() over the ASCII alphabet: at least one
letter and no lowercase letter. -/
def pyIsUpperStr (cs : List Char) : Bool :=
  cs.any isUpperAZ && !(cs.any isLowerAZ)

/-- Embedding of is_chapter_header (pdf.py lines 37-81): strip, reject lines
shorter than 3 characters, accept any of the eight header regexes, then
reject lines longer than 100 characters, accept all-uppercase lines longer
than 3 characters, and accept a numbered line whose first letter after the
dot is uppercase. -/
def is_chapter_header (text : String) : Bool :=
  let t := pyStrip text
  let cs := t.toList
  if t.length < 3 then false
  else if patLitNum "Chapter".toList cs then true
  else if patLitNum "CHAPTER".toList cs then true
  else if patNumDotTitle cs then true
  else if patRomanTitle cs then true
  else if matchWordsThen ["Clean".toList, "Code".toList] sepThenUpper cs then true
  else if matchWordsThen ["The".toList, "Elements".toList, "of".toList, "Style".toList]
      sepThenUpper cs then true
  else if patWordNum cs then true
  else if patLitNum "Part".toList cs then true
  else if 100 < t.length then false
  else if pyIsUpperStr cs && 3 < t.length then true
  else if patNumDotUpper cs then true
  else false

/-- One chapter row as built by process_pdf, restricted to the fields the
claims are about. -/
structure SegChapter where
  chapter_no : Nat
  title : String
  content : String
deriving Repr, DecidableEq

/-- The loop state of process_pdf (pdf.py lines 147-152). -/
structure SegState where
  chapters : List SegChapter
  current_chapter : List String
  chapter_number : Nat
  all_text : List String
  current_title : Option String
  page_buffer : List String
deriving Repr, DecidableEq

/-- The initial loop state of process_pdf. -/
def initSegState : SegState :=
  { chapters := [], current_chapter := [], chapter_number := 1,
    all_text := [], current_title := none, page_buffer := [] }

/-- The buffered-content flush of process_pdf (pdf.py lines 174-178 and
212-215): join the buffer, append it to the current chapter when it has
non-whitespace content, and clear the buffer. -/
def flush_buffer (st : SegState) : SegState :=
  if st.page_buffer = [] then st
  else
    let buffer_text := String.intercalate "\n" st.page_buffer
    if pyStrip buffer_text ≠ "" then
      { st with current_chapter := st.current_chapter ++ [buffer_text],
                page_buffer := [] }
    else { st with page_buffer := [] }

/-- The title a saved chapter receives: the pending detected header, or the
default Chapter n. -/
def chapter_title (st : SegState) : String :=
  st.current_title.getD ("Chapter " ++ toString st.chapter_number)

/-- The mid-scan chapter save of process_pdf (pdf.py lines 181-196), which
advances the chapter number. -/
def save_chapter_mid (st : SegState) : SegState :=
  if st.current_chapter = [] then st
  else
    let chapter_text := String.intercalate "\n" st.current_chapter
    if pyStrip chapter_text ≠ "" then
      { st with
        chapters := st.chapters ++
          [{ chapter_no := st.chapter_number, title := chapter_title st,
             content := chapter_text }],
        chapter_number := st.chapter_number + 1,
        current_chapter := [] }
    else { st with current_chapter := [] }

/-- The final chapter save of process_pdf (pdf.py lines 218-231), which does
not advance the chapter number. -/
def save_chapter_final (st : SegState) : SegState :=
  if st.current_chapter = [] then st
  else
    let chapter_text := String.intercalate "\n" st.current_chapter
    if pyStrip chapter_text ≠ "" then
      { st with
        chapters := st.chapters ++
          [{ chapter_no := st.chapter_number, title := chapter_title st,
             content := chapter_text }],
        current_chapter := [] }
    else { st with current_chapter := [] }

/-- The per-line step of process_pdf (pdf.py lines 168-205): on a header,
flush the buffer, save the pending chapter and remember the extracted title;
otherwise append the stripped line to the open chapter, or to the buffer when
no chapter is open. -/
def process_line (extract_title : String → String) (st : SegState)
    (line0 : String) : SegState :=
  let line := pyStrip line0
  if is_chapter_header line then
    let st2 := save_chapter_mid (flush_buffer st)
    { st2 with current_title := some (extract_title line) }
  else if st.current_chapter = [] then
    { st with page_buffer := st.page_buffer ++ [line] }
  else
    { st with current_chapter := st.current_chapter ++ [line] }

/-- Split a character list at every occurrence of a separator, keeping empty
segments, exactly as the Python str.split with an explicit separator does. -/
def split_on_char (sep : Char) : List Char → List (List Char)
  | [] => [[]]
  | c :: cs =>
    if c = sep then [] :: split_on_char sep cs
    else
      match split_on_char sep cs with
      | [] => [[c]]
      | g :: gs => (c :: g) :: gs

/-- Embedding of the Python text.split of process_pdf on the newline
character. -/
def pySplitNL (s : String) : List String :=
  (split_on_char (Char.ofNat 10) s.toList).map String.mk

/-- The per-page step of process_pdf (pdf.py lines 154-205): pages with no
extracted text are skipped; otherwise the raw text is recorded and each line
is processed. -/
def process_page (extract_title : String → String) (st : SegState)
    (text : String) : SegState :=
  if text = "" then st
  else
    let st1 := { st with all_text := st.all_text ++ [text] }
    (pySplitNL text).foldl (process_line extract_title) st1

/-- The end-of-scan logic of process_pdf (pdf.py lines 211-248): flush the
buffer, save the last chapter, and when no chapter was produced fall back to
a single Document chapter over the raw concatenated text, failing when even
that is only whitespace. -/
def finish_segmentation (st : SegState) : Except String (List SegChapter) :=
  let st2 := save_chapter_final (flush_buffer st)
  if st2.chapters = [] then
    let all_text_combined := String.intercalate "\n" st2.all_text
    if pyStrip all_text_combined ≠ "" then
      .ok [{ chapter_no := 1, title := "Document", content := all_text_combined }]
    else .error "No text content could be extracted from the PDF"
  else .ok st2.chapters

/-- Embedding of the segmentation performed by process_pdf (pdf.py lines
106-263) on the list of per-page extracted texts. -/
def process_pdf_chapters (extract_title : String → String)
    (pages : List String) : Except String (List SegChapter) :=
  if pages.length = 0 then .error "PDF file is empty"
  else finish_segmentation (pages.foldl (process_page extract_title) initSegState)

/-! ## Theorems for the claims -/

/-- Claim C1, counterexample to the stated indexing: completing a review at
stage 3 sets next_review_at to now + 14 days, not now + 7 days as the
pre-increment interval table asserts; the table delay of the pre-increment
stage 3 is 7. -/
theorem complete_review_stage3_fourteen_days :
    complete_review { review_stage := 3, last_reviewed_at := none,
                      next_review_at := 0 } 0 =
      .updated { review_stage := 4, last_reviewed_at := some 0,
                 next_review_at := 0 + 14 } ∧
    (0 + 14 : Nat) ≠ 0 + interval_table_days 3 := by
  decide

/-- Claim C1, amended: completing a review at stage s with 1 <= s <= 4 yields
stage s + 1 and next_review_at = completion time + the delay the interval
table assigns to the POST-increment stage s + 1; completing at stage 5
deletes the recommendation. -/
theorem complete_review_interval_after_increment (rec : ReviewRec) (now : Nat) :
    (1 ≤ rec.review_stage → rec.review_stage ≤ 4 →
      complete_review rec now =
        .updated { review_stage := rec.review_stage + 1,
                   last_reviewed_at := some now,
                   next_review_at := now + interval_table_days (rec.review_stage + 1) }) ∧
    (rec.review_stage = 5 → complete_review rec now = .deleted) := by
  obtain ⟨s, lr, nx⟩ := rec
  constructor
  · intro h1 h2
    interval_cases s <;> simp [complete_review, interval_table_days]
  · intro h
    simp only at h
    subst h
    rfl

/-- Claim C1, witness: completing at stage 3 yields stage 4 with a 14-day
delay, and completing at stage 5 deletes. -/
theorem complete_review_interval_after_increment_witness :
    complete_review { review_stage := 3, last_reviewed_at := none,
                      next_review_at := 0 } 5 =
      .updated { review_stage := 4, last_reviewed_at := some 5,
                 next_review_at := 5 + interval_table_days 4 } ∧
    complete_review { review_stage := 5, last_reviewed_at := none,
                      next_review_at := 0 } 5 = .deleted :=
  ⟨(complete_review_interval_after_increment
      { review_stage := 3, last_reviewed_at := none, next_review_at := 0 } 5).1
      (by decide) (by decide),
   (complete_review_interval_after_increment
      { review_stage := 5, last_reviewed_at := none, next_review_at := 0 } 5).2 rfl⟩

/-- Claim C6, counterexample: a short_answer submission equal to the stored
canonical answer (so in particular equal up to case) is graded incorrect. -/
theorem short_answer_exact_match_graded_false :
    gradeAnswer "short_answer" [] "Paris" "Paris" = .ok false := rfl

/-- Claim C6, amended: the grader never matches a short_answer submission
against the stored answer at all; every short_answer submission is graded
incorrect, because submit_answer only handles the multiple_choice and
true_false question types and leaves is_correct at its initial False. -/
theorem short_answer_always_graded_false (options : List String)
    (correct_answer chosen_answer : String) :
    gradeAnswer "short_answer" options correct_answer chosen_answer = .ok false := rfl

/-- Claim C3, counterexample: the option assembly is deterministic, with the
designated correct option first and correct_answer the constant A, on both
the generic and the domain paths; no shuffle is applied before the letter is
assigned. -/
theorem generated_question_correct_first_concrete :
    make_generic_question "Q" ⟨"a", "xa", "sa"⟩ "definition"
        [⟨"a", "xa", "sa"⟩, ⟨"b", "xb", "sb"⟩, ⟨"c", "xc", "sc"⟩, ⟨"d", "xd", "sd"⟩] =
      some { question_text := "Q", question_type := "multiple_choice",
             options := ["sa", "sb", "sc", "sd"], correct_answer := "A" } ∧
    make_domain_question "Q" ⟨"a", "xa", "sa"⟩ "definition"
        [⟨"a", "xa", "sa"⟩, ⟨"b", "xb", "sb"⟩, ⟨"c", "xc", "sc"⟩, ⟨"d", "xd", "sd"⟩] =
      some { question_text := "Q", question_type := "multiple_choice",
             options := [("A", "sa"), ("B", "sb"), ("C", "sc"), ("D", "sd")],
             correct_answer := "A" } := by
  constructor <;> rfl

/-- Claim C3, amended: in the generic and domain generation paths the options
are never shuffled and correct_answer is fixed at the letter A before
anything else happens: every emitted question has correct_answer A and its
first option is the designated correct option. -/
theorem generated_questions_fix_letter_A :
    (∀ (qt : String) (c : ConceptRec) (cat : String) (cs : List ConceptRec)
        (q : MCQuestion),
        make_generic_question qt c cat cs = some q →
        q.correct_answer = "A" ∧
        q.options.head? = some (correct_option_text c cat)) ∧
    (∀ (qt : String) (c : ConceptRec) (cat : String) (cs : List ConceptRec)
        (q : MCDictQuestion),
        make_domain_question qt c cat cs = some q →
        q.correct_answer = "A" ∧
        q.options.head? = some ("A", correct_option_text c cat)) := by
  constructor
  · intro qt c cat cs q h
    dsimp only [make_generic_question] at h
    split at h
    · injection h with h2
      subst h2
      exact ⟨rfl, rfl⟩
    · simp at h
  · intro qt c cat cs q h
    dsimp only [make_domain_question] at h
    split at h
    · injection h with h2
      subst h2
      exact ⟨rfl, rfl⟩
    · simp at h

/-- Claim C3, witness: the amended theorem applied to a concrete emitted
question on each path. -/
theorem generated_questions_fix_letter_A_witness :
    (({ question_text := "Q", question_type := "multiple_choice",
        options := ["sa", "sb", "sc", "sd"], correct_answer := "A" } : MCQuestion).correct_answer = "A" ∧
     ({ question_text := "Q", question_type := "multiple_choice",
        options := ["sa", "sb", "sc", "sd"], correct_answer := "A" } : MCQuestion).options.head? =
       some (correct_option_text ⟨"a", "xa", "sa"⟩ "definition")) ∧
    (({ question_text := "Q", question_type := "multiple_choice",
        options := [("A", "sa"), ("B", "sb"), ("C", "sc"), ("D", "sd")],
        correct_answer := "A" } : MCDictQuestion).correct_answer = "A" ∧
     ({ question_text := "Q", question_type := "multiple_choice",
        options := [("A", "sa"), ("B", "sb"), ("C", "sc"), ("D", "sd")],
        correct_answer := "A" } : MCDictQuestion).options.head? =
       some ("A", correct_option_text ⟨"a", "xa", "sa"⟩ "definition")) :=
  ⟨generated_questions_fix_letter_A.1 "Q" ⟨"a", "xa", "sa"⟩ "definition"
      [⟨"a", "xa", "sa"⟩, ⟨"b", "xb", "sb"⟩, ⟨"c", "xc", "sc"⟩, ⟨"d", "xd", "sd"⟩] _ rfl,
   generated_questions_fix_letter_A.2 "Q" ⟨"a", "xa", "sa"⟩ "definition"
      [⟨"a", "xa", "sa"⟩, ⟨"b", "xb", "sb"⟩, ⟨"c", "xc", "sc"⟩, ⟨"d", "xd", "sd"⟩] _ rfl⟩

/-- The generic option list never exceeds 4 entries: one correct option plus
at most 3 distractors. -/
theorem generate_generic_options_length_le (c : ConceptRec) (cat : String)
    (cs : List ConceptRec) : (generate_generic_options c cat cs).length ≤ 4 := by
  simp [generate_generic_options]

/-- Padding with the while loop yields exactly 4 options whenever at most 4
were gathered. -/
theorem pad_to_four_length (opts : List String) (filler : String)
    (h : opts.length ≤ 4) : (pad_to_four opts filler).length = 4 := by
  simp [pad_to_four]
  omega

/-- The final adjustment leaves a 4-element option list unchanged. -/
theorem ensure_four_of_length_four (word : String) (l : List String)
    (h : l.length = 4) : ensure_four word l = l := by
  simp [ensure_four, h]

/-- Gather-then-pad always lands on exactly 4 options. -/
theorem ensure_pad_length (word filler : String) (opts : List String)
    (h : opts.length ≤ 4) :
    (ensure_four word (pad_to_four opts filler)).length = 4 := by
  rw [ensure_four_of_length_four word _ (pad_to_four_length opts filler h)]
  exact pad_to_four_length opts filler h

/-- Claim C4: every emitted generic multiple_choice question has exactly 4
options and its correct-answer letter is one of A, B, C, D indexing a valid
option, and the vocabulary option builder always returns exactly 4
options. -/
theorem generated_mc_questions_four_options :
    (∀ (qt : String) (c : ConceptRec) (cat : String) (cs : List ConceptRec)
        (q : MCQuestion),
        make_generic_question qt c cat cs = some q →
        q.question_type = "multiple_choice" ∧ q.options.length = 4 ∧
        q.correct_answer ∈ (["A", "B", "C", "D"] : List String) ∧
        letter_pos q.correct_answer < q.options.length) ∧
    (∀ (word q_type : String) (ext : ExternalData),
        (generate_vocabulary_options word q_type ext).length = 4) := by
  constructor
  · intro qt c cat cs q h
    dsimp only [make_generic_question] at h
    split at h
    case isTrue h4 =>
      injection h with h2
      subst h2
      have hlen : (generate_generic_options c cat cs).length = 4 :=
        le_antisymm (generate_generic_options_length_le c cat cs) h4
      refine ⟨rfl, hlen, by simp, ?_⟩
      show letter_pos "A" < (generate_generic_options c cat cs).length
      rw [hlen]
      decide
    case isFalse => simp at h
  · intro word q_type ext
    dsimp only [generate_vocabulary_options]
    by_cases h1 : q_type = "definition"
    · simp only [h1, if_true]
      cases hd : ext.dictionary with
      | none => exact ensure_pad_length _ _ _ (by simp)
      | some meanings =>
        cases meanings with
        | nil => rfl
        | cons m ms =>
          exact ensure_pad_length _ _ _ (by simp [List.length_take])
    · simp only [h1, if_false]
      by_cases h2 : q_type = "synonym"
      · simp only [h2, if_true]
        cases ext.thesaurus with
        | none => exact ensure_pad_length _ _ _ (by simp)
        | some syns => exact ensure_pad_length _ _ _ (by simp [List.length_take])
      · simp only [h2, if_false]
        by_cases h3 : q_type = "antonym"
        · simp only [h3, if_true]
          cases ext.dictionary with
          | none => exact ensure_pad_length _ _ _ (by simp)
          | some meanings => exact ensure_pad_length _ _ _ (by simp [List.length_take])
        · simp only [h3, if_false]
          cases ext.dictionary with
          | none => exact ensure_pad_length _ _ _ (by simp)
          | some meanings => exact ensure_pad_length _ _ _ (by simp [List.length_take])

/-- Claim C4, witness: the theorem applied to a concrete emitted question and
to concrete external data of each shape. -/
theorem generated_mc_questions_four_options_witness :
    ("multiple_choice" = "multiple_choice" ∧
     (["sa", "sb", "sc", "sd"] : List String).length = 4 ∧
     "A" ∈ (["A", "B", "C", "D"] : List String) ∧
     letter_pos "A" < (["sa", "sb", "sc", "sd"] : List String).length) ∧
    (generate_vocabulary_options "cat" "definition"
        { dictionary := none, thesaurus := none }).length = 4 :=
  ⟨generated_mc_questions_four_options.1 "Q" ⟨"a", "xa", "sa"⟩ "definition"
      [⟨"a", "xa", "sa"⟩, ⟨"b", "xb", "sb"⟩, ⟨"c", "xc", "sc"⟩, ⟨"d", "xd", "sd"⟩] _ rfl,
   generated_mc_questions_four_options.2 "cat" "definition"
      { dictionary := none, thesaurus := none }⟩

/-- Claim C5: for a multiple_choice question whose correct-answer letter
indexes a valid option, grading returns correct exactly when the submission
equals the letter or equals the verbatim option text at the letter index,
and incorrect for every other submission. -/
theorem grade_multiple_choice_letter_or_text (options : List String) (c : Char)
    (chosen : String) (h1 : 'A'.toNat ≤ c.toNat)
    (h2 : c.toNat - 'A'.toNat < options.length) :
    gradeAnswer "multiple_choice" options (String.singleton c) chosen =
      .ok (chosen == String.singleton c ||
           chosen == options.getD (c.toNat - 'A'.toNat) "") := by
  have hord : pyOrd (String.singleton c) = some c.toNat := rfl
  have hcond : ¬(((c.toNat : Int) - (('A'.toNat : Nat) : Int) < 0) ∨
      ((options.length : Int) ≤ (c.toNat : Int) - (('A'.toNat : Nat) : Int))) := by
    omega
  have hidx : (((c.toNat : Int) - (('A'.toNat : Nat) : Int))).toNat =
      c.toNat - 'A'.toNat := by
    omega
  simp only [gradeAnswer, hord, if_neg hcond, hidx, reduceIte]

/-- Claim C5, witness: the Paris example, with the letter submission and the
text submission graded correct and a wrong option text graded incorrect. -/
theorem grade_multiple_choice_letter_or_text_witness :
    gradeAnswer "multiple_choice" ["Paris", "London", "Rome", "Berlin"]
        (String.singleton 'A') "A" =
      .ok (("A" : String) == String.singleton 'A' ||
           ("A" : String) == (["Paris", "London", "Rome", "Berlin"].getD
             ('A'.toNat - 'A'.toNat) "")) ∧
    gradeAnswer "multiple_choice" ["Paris", "London", "Rome", "Berlin"]
        (String.singleton 'A') "Paris" =
      .ok (("Paris" : String) == String.singleton 'A' ||
           ("Paris" : String) == (["Paris", "London", "Rome", "Berlin"].getD
             ('A'.toNat - 'A'.toNat) "")) ∧
    gradeAnswer "multiple_choice" ["Paris", "London", "Rome", "Berlin"]
        (String.singleton 'A') "London" =
      .ok (("London" : String) == String.singleton 'A' ||
           ("London" : String) == (["Paris", "London", "Rome", "Berlin"].getD
             ('A'.toNat - 'A'.toNat) "")) :=
  ⟨grade_multiple_choice_letter_or_text _ 'A' "A" (by decide) (by decide),
   grade_multiple_choice_letter_or_text _ 'A' "Paris" (by decide) (by decide),
   grade_multiple_choice_letter_or_text _ 'A' "London" (by decide) (by decide)⟩

/-- Claim C7, counterexample: create_exam_session persists the
client-supplied score and total without validation, so a request with score
5 and total_questions 3 creates a session violating score less-or-equal
total. -/
theorem create_session_unvalidated_violates_invariant :
    ¬((create_exam_session 1 1 1 5 3 none 0).score ≤
      (create_exam_session 1 1 1 5 3 none 0).total_questions) := by
  decide

/-- Claim C7, amended: sessions created by answer submission start with score
0 of total 0, and session completion sets score to the number of correct
attempts out of total attempts, so both satisfy score less-or-equal total;
direct session creation, however, copies the client-supplied score and total
verbatim and can violate the invariant. -/
theorem session_score_le_total_by_operation :
    (∀ (st : DBState) (user : Nat) (q : QuestionRec) (chosen : String) (now : Nat)
        (st2 : DBState) (att : AttemptRec),
        submit_answer st user q chosen now = .ok (st2, att) →
        ∀ s, s ∈ st2.sessions →
          s ∈ st.sessions ∨ (s.score = 0 ∧ s.total_questions = 0)) ∧
    (∀ (sess : ExamSessionRec) (attempts : List AttemptRec) (now : Nat),
        (complete_exam_session sess attempts now).score ≤
          (complete_exam_session sess attempts now).total_questions) ∧
    (∀ (sid user chapter : Nat) (score total_questions : Int)
        (duration : Option Nat) (now : Nat),
        (create_exam_session sid user chapter score total_questions duration now).score =
          score ∧
        (create_exam_session sid user chapter score total_questions duration now).total_questions =
          total_questions) := by
  refine ⟨?_, ?_, ?_⟩
  · intro st user q chosen now st2 att h s hs
    rcases hg : gradeAnswer q.question_type q.options q.correct_answer chosen with e | b
    · simp [submit_answer, hg] at h
    · rcases hf : findActiveSession st user q.chapter_id with _ | sess0
      · simp only [submit_answer, hg, hf, Except.ok.injEq, Prod.mk.injEq] at h
        obtain ⟨h1, h2⟩ := h
        subst h1
        simp only [List.mem_append, List.mem_singleton] at hs
        rcases hs with hs | hs
        · exact Or.inl hs
        · subst hs
          exact Or.inr ⟨rfl, rfl⟩
      · simp only [submit_answer, hg, hf, Except.ok.injEq, Prod.mk.injEq] at h
        obtain ⟨h1, h2⟩ := h
        subst h1
        exact Or.inl hs
  · intro sess attempts now
    simp only [complete_exam_session]
    exact_mod_cast List.length_filter_le _ _
  · intro sid user chapter score total_questions duration now
    exact ⟨rfl, rfl⟩

/-- Claim C7, witness: a concrete submission with no active session creates
the zero session, and a concrete completion satisfies the bound. -/
theorem session_score_le_total_by_operation_witness :
    (({ sid := 7, user_id := 1, chapter_id := 9, score := 0, total_questions := 0,
        correct_answers := 0, started_at := 0, completed_at := none } : ExamSessionRec) ∈
        ([] : List ExamSessionRec) ∨
      (({ sid := 7, user_id := 1, chapter_id := 9, score := 0, total_questions := 0,
          correct_answers := 0, started_at := 0, completed_at := none } : ExamSessionRec).score = 0 ∧
       ({ sid := 7, user_id := 1, chapter_id := 9, score := 0, total_questions := 0,
          correct_answers := 0, started_at := 0, completed_at := none } : ExamSessionRec).total_questions = 0)) ∧
    ((complete_exam_session
        { sid := 7, user_id := 1, chapter_id := 9, score := 0, total_questions := 0,
          correct_answers := 0, started_at := 0, completed_at := none } [] 3).score ≤
      (complete_exam_session
        { sid := 7, user_id := 1, chapter_id := 9, score := 0, total_questions := 0,
          correct_answers := 0, started_at := 0, completed_at := none } [] 3).total_questions) :=
  ⟨session_score_le_total_by_operation.1
      { sessions := [], attempts := [], nextSessionId := 7 } 1
      { qid := 3, question_type := "true_false", options := [],
        correct_answer := "true", chapter_id := 9 } "true" 0
      { sessions := [{ sid := 7, user_id := 1, chapter_id := 9, score := 0,
                       total_questions := 0, correct_answers := 0, started_at := 0,
                       completed_at := none }],
        attempts := [{ user_id := 1, question_id := 3, exam_session_id := 7,
                       chosen_answer := "true", is_correct := true }],
        nextSessionId := 8 }
      { user_id := 1, question_id := 3, exam_session_id := 7,
        chosen_answer := "true", is_correct := true } rfl _ (by simp),
   session_score_le_total_by_operation.2.1
      { sid := 7, user_id := 1, chapter_id := 9, score := 0, total_questions := 0,
        correct_answers := 0, started_at := 0, completed_at := none } [] 3⟩

/-- Claim C9: when a multiple_choice question stores a correct-answer letter
whose index is negative or at least the option count, submitting any answer
fails with the data-integrity error of the code and the persisted state is
unchanged, so no attempt row is created. -/
theorem submit_answer_invalid_letter_error_no_attempt
    (st : DBState) (user : Nat) (q : QuestionRec) (chosen : String) (now : Nat)
    (c : Char) (htype : q.question_type = "multiple_choice")
    (hletter : q.correct_answer = String.singleton c)
    (hbad : ((c.toNat : Int) - (('A'.toNat : Nat) : Int) < 0) ∨
            ((q.options.length : Int) ≤ (c.toNat : Int) - (('A'.toNat : Nat) : Int))) :
    submit_answer st user q chosen now = .error "Invalid correct answer format" ∧
    submit_answer_state st user q chosen now = st := by
  have hord : pyOrd (String.singleton c) = some c.toNat := rfl
  have hg : gradeAnswer q.question_type q.options q.correct_answer chosen =
      .error "Invalid correct answer format" := by
    rw [htype, hletter]
    simp only [gradeAnswer, hord, if_pos hbad, reduceIte]
  have hmain : submit_answer st user q chosen now =
      .error "Invalid correct answer format" := by
    simp only [submit_answer, hg]
  exact ⟨hmain, by simp only [submit_answer_state, hmain]⟩

/-- Claim C9, witness: a stored letter E over 4 options errors out and leaves
the state untouched. -/
theorem submit_answer_invalid_letter_error_no_attempt_witness :
    submit_answer { sessions := [], attempts := [], nextSessionId := 0 } 1
        { qid := 3, question_type := "multiple_choice",
          options := ["Paris", "London", "Rome", "Berlin"],
          correct_answer := "E", chapter_id := 9 } "A" 0 =
      .error "Invalid correct answer format" ∧
    submit_answer_state { sessions := [], attempts := [], nextSessionId := 0 } 1
        { qid := 3, question_type := "multiple_choice",
          options := ["Paris", "London", "Rome", "Berlin"],
          correct_answer := "E", chapter_id := 9 } "A" 0 =
      { sessions := [], attempts := [], nextSessionId := 0 } :=
  submit_answer_invalid_letter_error_no_attempt
    { sessions := [], attempts := [], nextSessionId := 0 } 1
    { qid := 3, question_type := "multiple_choice",
      options := ["Paris", "London", "Rome", "Berlin"],
      correct_answer := "E", chapter_id := 9 } "A" 0 'E' rfl rfl (by decide)

/-- Claim C10: every attempt recorded by a successful submission is attached
to a session of the submitting user and the answered chapter whose
completed_at is unset, and when no such active session existed the attached
session is the freshly created one with zero score, zero total and zero
correct answers. -/
theorem submit_answer_attaches_active_session
    (st : DBState) (user : Nat) (q : QuestionRec) (chosen : String) (now : Nat)
    (st2 : DBState) (att : AttemptRec)
    (h : submit_answer st user q chosen now = .ok (st2, att)) :
    att ∈ st2.attempts ∧
    ∃ sess, sess ∈ st2.sessions ∧ sess.sid = att.exam_session_id ∧
      sess.user_id = user ∧ sess.chapter_id = q.chapter_id ∧
      sess.completed_at = none ∧
      (findActiveSession st user q.chapter_id = none →
        sess.score = 0 ∧ sess.total_questions = 0 ∧ sess.correct_answers = 0) := by
  rcases hg : gradeAnswer q.question_type q.options q.correct_answer chosen with e | b
  · simp [submit_answer, hg] at h
  · rcases hf : findActiveSession st user q.chapter_id with _ | sess0
    · simp only [submit_answer, hg, hf, Except.ok.injEq, Prod.mk.injEq] at h
      obtain ⟨h1, h2⟩ := h
      subst h1
      subst h2
      refine ⟨by simp, ?_⟩
      refine ⟨{ sid := st.nextSessionId, user_id := user, chapter_id := q.chapter_id,
                score := 0, total_questions := 0, correct_answers := 0,
                started_at := now, completed_at := none }, ?_, rfl, rfl, rfl, rfl,
              fun _ => ⟨rfl, rfl, rfl⟩⟩
      simp
    · simp only [submit_answer, hg, hf, Except.ok.injEq, Prod.mk.injEq] at h
      obtain ⟨h1, h2⟩ := h
      subst h1
      subst h2
      have hmem : sess0 ∈ st.sessions :=
        List.mem_of_find?_eq_some hf
      have hp := List.find?_some hf
      simp only [Bool.and_eq_true, beq_iff_eq] at hp
      obtain ⟨⟨hu, hc⟩, hdone⟩ := hp
      refine ⟨by simp, sess0, by simpa using hmem, rfl, hu, hc, hdone, ?_⟩
      intro hnone
      exact Option.noConfusion hnone

/-- Claim C10, witness: a concrete submission with no active session creates
the zero session and attaches the attempt to it. -/
theorem submit_answer_attaches_active_session_witness :
    ({ user_id := 2, question_id := 4, exam_session_id := 11,
       chosen_answer := "true", is_correct := true } : AttemptRec) ∈
      [({ user_id := 2, question_id := 4, exam_session_id := 11,
          chosen_answer := "true", is_correct := true } : AttemptRec)] ∧
    ∃ sess : ExamSessionRec,
      sess ∈ [({ sid := 11, user_id := 2, chapter_id := 6, score := 0,
                 total_questions := 0, correct_answers := 0,
                 started_at := 1, completed_at := none } : ExamSessionRec)] ∧
      sess.sid = 11 ∧ sess.user_id = 2 ∧ sess.chapter_id = 6 ∧
      sess.completed_at = none ∧
      (findActiveSession { sessions := [], attempts := [], nextSessionId := 11 } 2 6 =
          none →
        sess.score = 0 ∧ sess.total_questions = 0 ∧ sess.correct_answers = 0) :=
  submit_answer_attaches_active_session
    { sessions := [], attempts := [], nextSessionId := 11 } 2
    { qid := 4, question_type := "true_false", options := [],
      correct_answer := "true", chapter_id := 6 } "true" 1
    { sessions := [{ sid := 11, user_id := 2, chapter_id := 6, score := 0,
                     total_questions := 0, correct_answers := 0,
                     started_at := 1, completed_at := none }],
      attempts := [{ user_id := 2, question_id := 4, exam_session_id := 11,
                     chosen_answer := "true", is_correct := true }],
      nextSessionId := 12 }
    { user_id := 2, question_id := 4, exam_session_id := 11,
      chosen_answer := "true", is_correct := true } rfl

/-- The stripped lines the scan accumulates when it never detects a header:
every line of every page with extracted text, stripped, in order. -/
def stripped_lines (pages : List String) : List String :=
  ((pages.filter (fun p => p ≠ "")).map (fun p => (pySplitNL p).map pyStrip)).flatten

/-- When no line of a chunk of lines is a header and no chapter is open, the
line scan only accumulates the stripped lines into the page buffer. -/
theorem foldl_process_line_no_header (et : String → String) (lines : List String)
    (st : SegState) (h : ∀ l ∈ lines, is_chapter_header (pyStrip l) = false)
    (hcc : st.current_chapter = []) :
    lines.foldl (process_line et) st =
      { st with page_buffer := st.page_buffer ++ lines.map pyStrip } := by
  induction lines generalizing st with
  | nil => simp
  | cons l ls ih =>
    have hl : is_chapter_header (pyStrip l) = false := h l (by simp)
    have hls : ∀ x ∈ ls, is_chapter_header (pyStrip x) = false :=
      fun x hx => h x (by simp [hx])
    have hstep : process_line et st l =
        { st with page_buffer := st.page_buffer ++ [pyStrip l] } := by
      simp [process_line, hl, hcc]
    rw [List.foldl_cons, hstep, ih _ hls (by simp [hcc])]
    simp

/-- When no line of any page is a header, the page scan records the non-empty
page texts and accumulates all stripped lines into the page buffer. -/
theorem foldl_process_page_no_header (et : String → String) (pages : List String)
    (st : SegState)
    (h : ∀ p ∈ pages, ∀ l ∈ pySplitNL p, is_chapter_header (pyStrip l) = false)
    (hcc : st.current_chapter = []) :
    pages.foldl (process_page et) st =
      { st with all_text := st.all_text ++ pages.filter (fun p => p ≠ ""),
                page_buffer := st.page_buffer ++ stripped_lines pages } := by
  induction pages generalizing st with
  | nil => simp [stripped_lines]
  | cons p ps ih =>
    have hp' : ∀ l ∈ pySplitNL p, is_chapter_header (pyStrip l) = false :=
      h p (by simp)
    have hps : ∀ x ∈ ps, ∀ l ∈ pySplitNL x, is_chapter_header (pyStrip l) = false :=
      fun x hx => h x (by simp [hx])
    by_cases hp : p = ""
    · have hstep : process_page et st p = st := by
        simp [process_page, hp]
      rw [List.foldl_cons, hstep, ih _ hps hcc]
      simp [stripped_lines, hp]
    · have hstep : process_page et st p =
          { st with all_text := st.all_text ++ [p],
                    page_buffer := st.page_buffer ++ (pySplitNL p).map pyStrip } := by
        rw [process_page, if_neg hp,
          foldl_process_line_no_header et _ _ hp' (by simp [hcc])]
      rw [List.foldl_cons, hstep, ih _ hps (by simp [hcc])]
      simp [stripped_lines, hp, List.append_assoc]

/-- With no pending detected title and chapter number 1, the default title is
Chapter 1. -/
theorem chapter_title_default_one (st : SegState) (h : st.current_title = none)
    (h2 : st.chapter_number = 1) : chapter_title st = "Chapter 1" := by
  simp only [chapter_title, h, h2, Option.getD_none]
  rfl

/-- Claim C2, counterexample: a document with extracted text and zero
detected headers is segmented into one chapter titled Chapter 1, not
Document; the Document fallback never fires in this situation because the
buffered lines already produced a chapter. -/
theorem segment_zero_headers_not_document_title :
    ((pySplitNL "hello world").all (fun l => !(is_chapter_header (pyStrip l)))) = true ∧
    pyStrip "hello world" ≠ "" ∧
    process_pdf_chapters (fun s => s) ["hello world"] =
      .ok [{ chapter_no := 1, title := "Chapter 1", content := "hello world" }] ∧
    "Chapter 1" ≠ "Document" := by
  exact ⟨rfl, by decide, rfl, by decide⟩

/-- Claim C2, amended: if the scan detects zero headers and some stripped
line has non-whitespace content, the result is exactly one chapter whose
title is the default Chapter 1 (not Document) and whose content is the
newline join of all stripped lines of the pages with extracted text. -/
theorem segment_zero_headers_single_chapter_default_title
    (et : String → String) (pages : List String)
    (hnohdr : ∀ p ∈ pages, ∀ l ∈ pySplitNL p, is_chapter_header (pyStrip l) = false)
    (hcontent : pyStrip (String.intercalate "\n" (stripped_lines pages)) ≠ "") :
    process_pdf_chapters et pages =
      .ok [{ chapter_no := 1, title := "Chapter 1",
             content := String.intercalate "\n" (stripped_lines pages) }] := by
  have hne : pages ≠ [] := by
    intro h0
    subst h0
    exact hcontent rfl
  have hfold := foldl_process_page_no_header et pages initSegState hnohdr rfl
  have hBne : stripped_lines pages ≠ [] := by
    intro h0
    apply hcontent
    rw [h0]
    rfl
  rw [process_pdf_chapters,
    if_neg (fun h => hne (List.length_eq_zero.mp h)), hfold]
  simp only [initSegState, List.nil_append]
  rw [finish_segmentation]
  have hflush : flush_buffer
      { chapters := [], current_chapter := [], chapter_number := 1,
        all_text := pages.filter (fun p => p ≠ ""), current_title := none,
        page_buffer := stripped_lines pages } =
      { chapters := [], chapter_number := 1,
        all_text := pages.filter (fun p => p ≠ ""), current_title := none,
        current_chapter := [String.intercalate "\n" (stripped_lines pages)],
        page_buffer := [] } := by
    rw [flush_buffer]
    rw [if_neg hBne]
    simp only [List.nil_append]
    rw [if_pos hcontent]
  rw [hflush]
  have hsave : save_chapter_final
      { chapters := [], chapter_number := 1,
        all_text := pages.filter (fun p => p ≠ ""), current_title := none,
        current_chapter := [String.intercalate "\n" (stripped_lines pages)],
        page_buffer := [] } =
      { chapters := [{ chapter_no := 1, title := "Chapter 1",
                       content := String.intercalate "\n" (stripped_lines pages) }],
        chapter_number := 1,
        all_text := pages.filter (fun p => p ≠ ""), current_title := none,
        current_chapter := [], page_buffer := [] } := by
    rw [save_chapter_final]
    rw [if_neg (by simp : ¬([String.intercalate "\n" (stripped_lines pages)] = ([] : List String)))]
    simp only []
    rw [show String.intercalate "\n" [String.intercalate "\n" (stripped_lines pages)] =
        String.intercalate "\n" (stripped_lines pages) from rfl]
    rw [if_pos hcontent]
    rw [chapter_title_default_one _ rfl rfl]
    simp
  rw [hsave]
  simp

/-- Claim C8, counterexample: with pages Chapter 1 / Chapter 2 and
one-sentence bodies, neither header line is detected (the header pattern
demands a title after the number), so segmentation yields one chapter, not
two. -/
theorem segment_chapter_number_lines_not_two :
    is_chapter_header "Chapter 1" = false ∧
    is_chapter_header "Chapter 2" = false ∧
    process_pdf_chapters (fun s => s)
        ["Chapter 1\nFoo bar baz qux.", "Chapter 2\nQuux corge grault."] =
      .ok [{ chapter_no := 1, title := "Chapter 1",
             content := "Chapter 1\nFoo bar baz qux.\nChapter 2\nQuux corge grault." }] := by
  exact ⟨rfl, rfl, rfl⟩

/-- Claim C8, amended: segmenting the two-page document whose pages start
with bare Chapter 1 and Chapter 2 lines yields exactly one chapter with
sequence number 1, because a bare Chapter n line matches no header
pattern. -/
theorem segment_chapter_number_lines_single_chapter :
    (process_pdf_chapters (fun s => s)
        ["Chapter 1\nFoo bar baz qux.", "Chapter 2\nQuux corge grault."]).map
      (fun chs => chs.map (fun ch => ch.chapter_no)) = .ok [1] := by
  rfl

/-- Claim C2, witness: the amended theorem applied to a concrete one-page
document with no detectable header. -/
theorem segment_zero_headers_single_chapter_default_title_witness :
    process_pdf_chapters (fun s => s) ["hello world"] =
      .ok [{ chapter_no := 1, title := "Chapter 1",
             content := String.intercalate "\n" (stripped_lines ["hello world"]) }] :=
  segment_zero_headers_single_chapter_default_title (fun s => s) ["hello world"]
    (by decide) (by decide)
